import Mathlib

/-!
Verification of the bulk email dispatch pipeline of the `email-sender`
repository against its natural-language specification.

The development shallowly embeds the TypeScript source:

* `parseTemplate`, `validateTemplate` embed the template engine of
  `src/utils` (the unnamed module exporting `EmailTemplate`): JavaScript
  `String.replace(new RegExp("\x7b\x7bkey\x7d\x7d", "g"), value)` is modelled by
  `replaceAll`, a left-to-right, non-overlapping literal-substring
  replacement that does not re-scan the replacement text (the keys
  appearing in the claims contain no regex metacharacters, so the regex
  is a literal match).  The regex `/\x7b\x7b([^\x7b\x7d]+)\x7d\x7d/g` used by
  `validateTemplate` is modelled by `scanPlaceholders`, and the JS `Set`
  (first-insertion-order deduplication) by `dedupFirst`.  The JS test
  `!s.trim()` is modelled by `isBlank` (true iff every char is whitespace).
* `sendSingleEmail` and `handlerModel` embed
  `src/pages/api/send-emails.ts`: the transport and the Prisma store are
  external collaborators, modelled by an `Outcomes` oracle that returns
  `none` when a call succeeds and `some msg` when it throws with message
  `msg`.  Timestamps (`sentAt`, `attemptedAt`) and the attachment-metadata
  blob written on success are elided from `StatusWrite`; the status and
  `errorMessage` are kept.  `Promise.allSettled` over
  `pendingEmails.map(...)` is modelled by an index-aligned `List.map`.
* `handleAttachmentAdd` / `handleAttachmentRemove` embed the attachment
  intake of `src/components/EmailCampaignManager.tsx`.

Recursive string scanners are written with an explicit fuel argument
(initialised to the string length, which each step strictly decreases)
so that every definition is structurally recursive and kernel-reducible.
-/

/-! ## Template engine (`EmailTemplate`, `parseTemplate`, `validateTemplate`) -/

structure EmailTemplate where
  subject : String
  body : String
deriving DecidableEq, Repr

/-- The literal token `\x7b\x7bkey\x7d\x7d` built from a key. -/
def placeholder (key : String) : String :=
  ⟨'{' :: '{' :: (key.data ++ ['}', '}'])⟩

/-- Fuelled left-to-right replacement of every non-overlapping occurrence of
`p` by `r` in `s`; the replacement `r` is emitted verbatim and not re-scanned,
matching JS `String.replace` with a global regex. -/
def replaceAllF : Nat → List Char → List Char → List Char → List Char
  | 0, _, _, s => s
  | Nat.succ fuel, p, r, s =>
    match s with
    | [] => []
    | c :: rest =>
      if p.isPrefixOf (c :: rest) then
        r ++ replaceAllF fuel p r ((c :: rest).drop p.length)
      else
        c :: replaceAllF fuel p r rest

def replaceAll (p r s : List Char) : List Char :=
  replaceAllF s.length p r s

def replaceAllStr (s pat rep : String) : String :=
  ⟨replaceAll pat.data rep.data s.data⟩

/-- `parseTemplate` from the template utility module: folds over
`Object.entries(data)` in insertion order, replacing every occurrence of
`\x7b\x7bkey\x7d\x7d` in subject and body by the key's value.  (`value || ''` in the
source is the identity on strings: the only falsy string is `''`.) -/
def parseTemplate (template : EmailTemplate) (data : List (String × String)) :
    EmailTemplate :=
  data.foldl (fun acc kv =>
    { subject := replaceAllStr acc.subject (placeholder kv.1) kv.2
      body := replaceAllStr acc.body (placeholder kv.1) kv.2 }) template

/-- Does `p` occur as a contiguous substring of `s`? -/
def occursL (p : List Char) : List Char → Bool
  | [] => p.isEmpty
  | c :: rest => p.isPrefixOf (c :: rest) || occursL p rest

def occursStr (pat s : String) : Bool :=
  occursL pat.data s.data

/-- `!s.trim()` in JS: the string is empty after trimming whitespace. -/
def isBlank (s : String) : Bool :=
  s.data.all Char.isWhitespace

/-- Fuelled scanner for the regex `/\x7b\x7b([^\x7b\x7d]+)\x7d\x7d/g`: at each position,
a match needs `\x7b\x7b`, then a nonempty maximal run of non-brace characters,
then `\x7d\x7d`; on success the scan continues after the match, on failure it
advances one character. -/
def scanF : Nat → List Char → List String
  | 0, _ => []
  | Nat.succ fuel, s =>
    match s with
    | [] => []
    | c :: rest =>
      if c = '{' then
        match rest with
        | '{' :: rest2 =>
          match rest2.takeWhile (fun d => !(d == '{') && !(d == '}')),
                rest2.dropWhile (fun d => !(d == '{') && !(d == '}')) with
          | [], _ => scanF fuel rest
          | k :: ks, '}' :: '}' :: rest3 => String.mk (k :: ks) :: scanF fuel rest3
          | _ :: _, _ => scanF fuel rest
        | _ => scanF fuel rest
      else scanF fuel rest

/-- All placeholder keys of a string, in match order. -/
def scanPlaceholders (s : String) : List String :=
  scanF s.data.length s.data

/-- First-insertion-order deduplication, as performed by `new Set([...])`. -/
def dedupGo : List String → List String → List String
  | [], _ => []
  | x :: xs, seen => if x ∈ seen then dedupGo xs seen else x :: dedupGo xs (x :: seen)

def dedupFirst (l : List String) : List String :=
  dedupGo l []

def supportedPlaceholders : List String :=
  ["name", "company", "position"]

/-- The distinct placeholder keys of a template (subject first, then body). -/
def templateTokens (t : EmailTemplate) : List String :=
  dedupFirst (scanPlaceholders t.subject ++ scanPlaceholders t.body)

def requiredFieldErrors (t : EmailTemplate) : List String :=
  (if isBlank t.subject then ["Subject is required"] else []) ++
  (if isBlank t.body then ["Body is required"] else [])

def unsupportedErrors (t : EmailTemplate) : List String :=
  ((templateTokens t).filter (fun k => !(supportedPlaceholders.contains k))).map
    (fun k => "Unsupported placeholder: " ++ placeholder k)

/-- `validateTemplate` from the template utility module: required-field
errors for blank subject/body, then one error per distinct unsupported
placeholder key, all collected into one list. -/
def validateTemplate (t : EmailTemplate) : List String :=
  requiredFieldErrors t ++ unsupportedErrors t

example : parseTemplate ⟨"Hi \x7b\x7bname\x7d\x7d", "x"⟩ [("name", "Jane")] = ⟨"Hi Jane", "x"⟩ := by decide
example : parseTemplate ⟨"Hi \x7b\x7bname\x7d\x7d", "x"⟩ [] = ⟨"Hi \x7b\x7bname\x7d\x7d", "x"⟩ := by decide
example : scanPlaceholders "Hi \x7b\x7bname\x7d\x7d and \x7b\x7bzz\x7d\x7d" = ["name", "zz"] := by decide
example : validateTemplate ⟨"", "x"⟩ = ["Subject is required"] := by decide
example : validateTemplate ⟨"Hi \x7b\x7bname\x7d\x7d", "Hello \x7b\x7bunknown\x7d\x7d"⟩ =
    ["Unsupported placeholder: \x7b\x7bunknown\x7d\x7d"] := by decide

/-! ## Dispatch orchestrator (`src/pages/api/send-emails.ts`) -/

inductive EmailStatus
  | PENDING
  | SENT
  | FAILED
deriving DecidableEq, Repr, BEq

/-- A recipient row as read from the store (`EmailRecord` in the source);
`metadata` is the opaque structured blob, modelled as an association list. -/
structure EmailRecordM where
  id : String
  emailAddress : String
  metadata : List (String × String)
deriving DecidableEq, Repr

/-- `EmailAttachment` from the source; `content` holds the attachment bytes. -/
structure EmailAttachment where
  filename : String
  content : List Nat
  contentType : String
deriving DecidableEq, Repr

/-- `EmailSendResult` from the source. -/
structure EmailSendResult where
  success : Bool
  email : String
  error : Option String
deriving DecidableEq, Repr

/-- One successful `prisma.email.update` call: the status written and the
`errorMessage` recorded (timestamps and the metadata blob are elided). -/
structure StatusWrite where
  id : String
  status : EmailStatus
  errorMessage : Option String
deriving DecidableEq, Repr

/-- The message handed to `transporter.sendMail` for one recipient
(`toAddr` embeds the `to` field; `to` is reserved in Lean). -/
structure MailMessage where
  toAddr : String
  subject : String
  html : String
  attachments : List EmailAttachment
deriving DecidableEq, Repr

/-- Oracle for the external collaborators: `send r` is the outcome of
`transporter.sendMail` for recipient `r` (`none` = resolves, `some e` =
throws with message `e`); `write r st` is the outcome of the
`prisma.email.update` that would set status `st` for `r`. -/
structure Outcomes where
  send : EmailRecordM → Option String
  write : EmailRecordM → EmailStatus → Option String

def buildMail (r : EmailRecordM) (subject content : String)
    (atts : List EmailAttachment) : MailMessage :=
  ⟨r.emailAddress, subject, content, atts⟩

/-- `sendSingleEmail`: try `sendMail` then the `SENT` update; any exception
falls to the catch block, which attempts a `FAILED` update recording the
exception's message and resolves with `success:false`; if the `FAILED`
update itself throws, the promise rejects (`Except.error`).  The second
component lists the status writes that actually reached the store. -/
def sendSingleEmail (r : EmailRecordM) (subject content : String)
    (atts : List EmailAttachment) (oc : Outcomes) :
    Except String EmailSendResult × List StatusWrite :=
  match oc.send r with
  | none =>
    match oc.write r EmailStatus.SENT with
    | none =>
      (Except.ok ⟨true, r.emailAddress, none⟩, [⟨r.id, EmailStatus.SENT, none⟩])
    | some werr =>
      match oc.write r EmailStatus.FAILED with
      | none =>
        (Except.ok ⟨false, r.emailAddress, some werr⟩,
         [⟨r.id, EmailStatus.FAILED, some werr⟩])
      | some werr2 => (Except.error werr2, [])
  | some serr =>
    match oc.write r EmailStatus.FAILED with
    | none =>
      (Except.ok ⟨false, r.emailAddress, some serr⟩,
       [⟨r.id, EmailStatus.FAILED, some serr⟩])
    | some werr2 => (Except.error werr2, [])

/-- How the handler folds one settled promise into a result entry:
a fulfilled promise contributes its value, a rejected one contributes
`\x7bemail, success:false, error: reason\x7d`. -/
def settleResult (r : EmailRecordM) (x : Except String EmailSendResult) :
    EmailSendResult :=
  match x with
  | Except.ok v => v
  | Except.error e => ⟨false, r.emailAddress, some e⟩

def dispatchResults (pending : List EmailRecordM) (subject content : String)
    (atts : List EmailAttachment) (oc : Outcomes) : List EmailSendResult :=
  pending.map (fun r => settleResult r (sendSingleEmail r subject content atts oc).1)

def dispatchWrites (pending : List EmailRecordM) (subject content : String)
    (atts : List EmailAttachment) (oc : Outcomes) : List StatusWrite :=
  (pending.map (fun r => (sendSingleEmail r subject content atts oc).2)).flatten

def dispatchMails (pending : List EmailRecordM) (subject content : String)
    (atts : List EmailAttachment) : List MailMessage :=
  pending.map (fun r => buildMail r subject content atts)

def successCount (rs : List EmailSendResult) : Nat :=
  (rs.filter (fun r => r.success)).length

def sentMessage (ok bad : Nat) : String :=
  "Successfully sent " ++ toString ok ++ " emails, " ++ toString bad ++ " failed"

/-- One uploaded form file as formidable hands it to the handler:
`readable` is whether `fs.access`/`fs.readFile` on its temp path succeed. -/
structure FormFile where
  key : String
  mimetype : String
  size : Nat
  filepath : String
  originalFilename : Option String
  readable : Bool
  bytes : List Nat
deriving DecidableEq, Repr

structure Statistics where
  total : Nat
  success : Nat
  failed : Nat
  attachments : Nat
deriving DecidableEq, Repr

inductive ApiResponse
  | badRequest (msg : String)
  | noPending
  | attachmentError (msg : String)
  | report (message : String) (results : List EmailSendResult) (stats : Statistics)
  | serverError (msg : String)
deriving DecidableEq, Repr

/-- The attachment intake loop of the handler: for each form entry whose key
starts with `attachment`, reject non-PDF mimetypes (400), files over 10 MiB
(400) and unreadable temp files (500); otherwise read the bytes into an
`EmailAttachment` and remember the temp path in `filesToDelete`. -/
def processFiles : List FormFile → List EmailAttachment → List String →
    Except ApiResponse (List EmailAttachment × List String)
  | [], atts, dels => Except.ok (atts, dels)
  | f :: rest, atts, dels =>
    if ("attachment".data).isPrefixOf f.key.data then
      if f.mimetype ≠ "application/pdf" then
        Except.error (ApiResponse.badRequest "Only PDF files are allowed")
      else if f.size > 10 * 1024 * 1024 then
        Except.error (ApiResponse.badRequest "PDF file size must be less than 10MB")
      else if f.readable = false then
        Except.error (ApiResponse.attachmentError "Error processing attachment")
      else
        processFiles rest
          (atts ++ [⟨f.originalFilename.getD "attachment.pdf", f.bytes, "application/pdf"⟩])
          (dels ++ [f.filepath])
    else processFiles rest atts dels

deriving instance DecidableEq for Except

/-- An incoming POST request after `parseForm`: the form fields, the uploaded
files, the result of `transporter.verify()` and the store's pending snapshot. -/
structure DispatchRequest where
  subject : String
  content : String
  verifyOk : Bool
  pending : List EmailRecordM
  files : List FormFile
deriving DecidableEq, Repr

/-- Everything observable about one handler invocation: the JSON response,
the successful status writes, the messages handed to the transport, and the
temp files deleted by the cleanup loop. -/
structure HandlerOutcome where
  response : ApiResponse
  writes : List StatusWrite
  mails : List MailMessage
  deletedFiles : List String
deriving DecidableEq, Repr

/-- The POST handler of `send-emails.ts`, in source order: missing
subject/content → 400; `verify()` throws → main catch (cleanup loop over the
still-empty `filesToDelete`, then 500); empty pending snapshot → early 200
without statistics; attachment intake; fan-out over the pending snapshot via
`Promise.allSettled`; cleanup of `filesToDelete`; aggregate report. -/
def handlerModel (req : DispatchRequest) (oc : Outcomes) : HandlerOutcome :=
  if req.subject = "" ∨ req.content = "" then
    ⟨ApiResponse.badRequest "Missing required fields: subject and content", [], [], []⟩
  else if req.verifyOk = false then
    ⟨ApiResponse.serverError "Failed to send emails", [], [], []⟩
  else if req.pending.isEmpty then
    ⟨ApiResponse.noPending, [], [], []⟩
  else
    match processFiles req.files [] [] with
    | Except.error resp => ⟨resp, [], [], []⟩
    | Except.ok (atts, dels) =>
      let rs := dispatchResults req.pending req.subject req.content atts oc
      ⟨ApiResponse.report (sentMessage (successCount rs) (rs.length - successCount rs)) rs
         ⟨rs.length, successCount rs, rs.length - successCount rs, atts.length⟩,
       dispatchWrites req.pending req.subject req.content atts oc,
       dispatchMails req.pending req.subject req.content atts,
       dels⟩

def statsOf (o : HandlerOutcome) : Option Statistics :=
  match o.response with
  | ApiResponse.report _ _ st => some st
  | _ => none

def resultsOf (o : HandlerOutcome) : Option (List EmailSendResult) :=
  match o.response with
  | ApiResponse.report _ rs _ => some rs
  | _ => none

def hasStatistics (resp : ApiResponse) : Bool :=
  match resp with
  | ApiResponse.report _ _ _ => true
  | _ => false

/-- Formidable writes every accepted upload to a temp path during
`parseForm`; these are the temp files still on disk after the handler
finished deleting `o.deletedFiles`. -/
def leftoverTempFiles (req : DispatchRequest) (o : HandlerOutcome) : List String :=
  (req.files.map (fun f => f.filepath)).filter (fun fp => !(o.deletedFiles.contains fp))

def countStatus (ws : List StatusWrite) (st : EmailStatus) : Nat :=
  (ws.filter (fun w => w.status == st)).length

/-! ## Client-side attachment intake (`EmailCampaignManager.tsx`) -/

structure ClientAttachment where
  id : String
  size : Nat
deriving DecidableEq, Repr

def totalSize (l : List ClientAttachment) : Nat :=
  (l.map (fun a => a.size)).sum

structure AddOutcome where
  attachments : List ClientAttachment
  errorNotification : Option String
deriving DecidableEq, Repr

/-- `handleAttachmentAdd`: reject the whole add (keeping the current list)
with an aggregate-size notification when current plus new files exceed
25 MiB; otherwise append the new files. -/
def handleAttachmentAdd (current newFiles : List ClientAttachment) : AddOutcome :=
  if totalSize (current ++ newFiles) > 25 * 1024 * 1024 then
    ⟨current, some "Total attachments size must be less than 25MB"⟩
  else
    ⟨current ++ newFiles, none⟩

/-- `handleAttachmentRemove`: drop the attachment with the given id. -/
def handleAttachmentRemove (current : List ClientAttachment) (i : String) :
    List ClientAttachment :=
  current.filter (fun a => !(a.id == i))

inductive ClientOp
  | add (files : List ClientAttachment)
  | remove (id : String)

def applyOp (s : List ClientAttachment) : ClientOp → List ClientAttachment
  | ClientOp.add fs => (handleAttachmentAdd s fs).attachments
  | ClientOp.remove i => handleAttachmentRemove s i

/-- The attachment list reached from the empty initial state by a sequence
of user add/remove interactions. -/
def applyOps (s : List ClientAttachment) (ops : List ClientOp) : List ClientAttachment :=
  ops.foldl applyOp s

/-! ## Helper lemmas -/

theorem isPrefixOf_self (l : List Char) : l.isPrefixOf l = true := by
  induction l with
  | nil => rfl
  | cons c rest ih => simp [List.isPrefixOf, ih]

theorem replaceAllF_nil (fuel : Nat) (p r : List Char) :
    replaceAllF fuel p r [] = [] := by
  cases fuel <;> rfl

/-- Replacing inside the pattern itself yields the replacement verbatim, even
when the replacement contains the pattern: the replacement is not re-scanned. -/
theorem replaceAll_self (p r : List Char) (h : p ≠ []) : replaceAll p r p = r := by
  cases p with
  | nil => exact absurd rfl h
  | cons c rest =>
    show replaceAllF (rest.length + 1) (c :: rest) r (c :: rest) = r
    rw [replaceAllF, if_pos (isPrefixOf_self (c :: rest))]
    rw [show (c :: rest).drop (c :: rest).length = [] from List.drop_length _]
    rw [replaceAllF_nil, List.append_nil]

theorem replaceAllF_no_occur (p r : List Char) :
    ∀ (fuel : Nat) (s : List Char), occursL p s = false → replaceAllF fuel p r s = s := by
  intro fuel
  induction fuel with
  | zero => intro s _; rfl
  | succ n ih =>
    intro s h
    cases s with
    | nil => rfl
    | cons c rest =>
      rw [occursL, Bool.or_eq_false_iff] at h
      rw [replaceAllF, if_neg (by simp [h.1]), ih rest h.2]

theorem replaceAllStr_no_occur (s pat rep : String) (h : occursStr pat s = false) :
    replaceAllStr s pat rep = s := by
  show String.mk (replaceAllF s.data.length pat.data rep.data s.data) = s
  rw [replaceAllF_no_occur pat.data rep.data s.data.length s.data h]

theorem placeholder_data (k : String) :
    (placeholder k).data = '{' :: '{' :: (k.data ++ ['}', '}']) := rfl

theorem string_append_data (a b : String) : (a ++ b).data = a.data ++ b.data := rfl

theorem string_data_inj {a b : String} (h : a.data = b.data) : a = b := by
  cases a; cases b; exact congrArg String.mk h

theorem mem_dedupGo (a : String) :
    ∀ (l seen : List String), a ∈ dedupGo l seen ↔ a ∈ l ∧ a ∉ seen := by
  intro l
  induction l with
  | nil => intro seen; simp [dedupGo]
  | cons x xs ih =>
    intro seen
    rw [dedupGo]
    by_cases hx : x ∈ seen
    · rw [if_pos hx, ih]
      constructor
      · rintro ⟨h1, h2⟩; exact ⟨List.mem_cons_of_mem _ h1, h2⟩
      · rintro ⟨h1, h2⟩
        rcases List.mem_cons.mp h1 with h1 | h1
        · exact absurd (h1 ▸ hx) h2
        · exact ⟨h1, h2⟩
    · rw [if_neg hx]
      simp only [List.mem_cons, ih (x :: seen)]
      constructor
      · rintro (rfl | ⟨h1, h2⟩)
        · exact ⟨Or.inl rfl, hx⟩
        · exact ⟨Or.inr h1, fun hc => h2 (Or.inr hc)⟩
      · rintro ⟨h1 | h1, h2⟩
        · exact Or.inl h1
        · by_cases hax : a = x
          · exact Or.inl hax
          · exact Or.inr ⟨h1, fun hc => hc.elim hax h2⟩

theorem nodup_dedupGo : ∀ (l seen : List String), (dedupGo l seen).Nodup := by
  intro l
  induction l with
  | nil => intro seen; simp [dedupGo]
  | cons x xs ih =>
    intro seen
    rw [dedupGo]
    by_cases hx : x ∈ seen
    · rw [if_pos hx]; exact ih seen
    · rw [if_neg hx]
      refine List.nodup_cons.mpr ⟨fun hc => ?_, ih (x :: seen)⟩
      exact ((mem_dedupGo x xs (x :: seen)).mp hc).2 (List.mem_cons_self _ _)

theorem nodup_dedupFirst (l : List String) : (dedupFirst l).Nodup :=
  nodup_dedupGo l []

theorem map_get_eq {α β : Type} (f : α → β) :
    ∀ (l : List α) (i : Nat) (h1 : i < (l.map f).length) (h2 : i < l.length),
      (l.map f).get ⟨i, h1⟩ = f (l.get ⟨i, h2⟩) := by
  intro l
  induction l with
  | nil => intro i h1 _; simp at h1
  | cons x xs ih =>
    intro i h1 h2
    cases i with
    | zero => rfl
    | succ j => exact ih j (by simpa using h1) (by simpa using h2)

theorem settle_email (r : EmailRecordM) (s c : String) (atts : List EmailAttachment)
    (oc : Outcomes) :
    (settleResult r (sendSingleEmail r s c atts oc).1).email = r.emailAddress := by
  rw [sendSingleEmail]
  cases oc.send r with
  | none =>
    cases oc.write r EmailStatus.SENT with
    | none => rfl
    | some werr =>
      cases oc.write r EmailStatus.FAILED with
      | none => rfl
      | some werr2 => rfl
  | some serr =>
    cases oc.write r EmailStatus.FAILED with
    | none => rfl
    | some werr2 => rfl

theorem parseTemplate_no_occur :
    ∀ (data : List (String × String)) (t : EmailTemplate),
      (∀ kv ∈ data, occursStr (placeholder kv.1) t.subject = false ∧
          occursStr (placeholder kv.1) t.body = false) →
      parseTemplate t data = t := by
  intro data
  induction data with
  | nil => intro t _; rfl
  | cons kv rest ih =>
    intro t h
    rw [parseTemplate, List.foldl_cons]
    rw [replaceAllStr_no_occur _ _ _ (h kv (List.mem_cons_self _ _)).1]
    rw [replaceAllStr_no_occur _ _ _ (h kv (List.mem_cons_self _ _)).2]
    exact ih t (fun kv2 h2 => h kv2 (List.mem_cons_of_mem _ h2))

theorem parseTemplate_single_self (k v : String) :
    parseTemplate ⟨placeholder k, placeholder k⟩ [(k, v)] = ⟨v, v⟩ := by
  rw [parseTemplate, List.foldl_cons, List.foldl_nil]
  have hne : (placeholder k).data ≠ [] := by
    rw [placeholder_data]; exact List.cons_ne_nil _ _
  have hv : replaceAllStr (placeholder k) (placeholder k) v = v := by
    show String.mk (replaceAll (placeholder k).data v.data (placeholder k).data) = v
    rw [replaceAll_self _ _ hne]
  rw [hv]

/-! ## Claims C2 and C7: substitution semantics -/

/-- C2 counterexample: the claim asserts that an occurrence of `\x7b\x7bname\x7d\x7d`
whose key is not in the map is replaced with the empty string; `parseTemplate`
leaves it untouched as literal text, so the subject stays `"Hi \x7b\x7bname\x7d\x7d"`
instead of the claimed `"Hi "`. -/
theorem c2_counterexample :
    parseTemplate ⟨"Hi \x7b\x7bname\x7d\x7d", "x"⟩ [("company", "ACME")] =
      ⟨"Hi \x7b\x7bname\x7d\x7d", "x"⟩ ∧
    ("Hi \x7b\x7bname\x7d\x7d" : String) ≠ "Hi " :=
  ⟨by decide, by decide⟩

/-- C2 (amended): `parseTemplate` replaces every occurrence of `\x7b\x7bk\x7d\x7d`
with `M[k]` for keys `k` of `M`, globally and case-sensitively, while
occurrences whose key is not in `M` are left unchanged as literal tokens:
(1) a template in which no key of the map occurs is returned unchanged;
(2) a key of the map is substituted (in subject and body) by its value;
(3) replacement is global — both occurrences of `\x7b\x7bname\x7d\x7d` are replaced;
(4) replacement is case-sensitive — `\x7b\x7bName\x7d\x7d` does not match key `name`. -/
theorem c2_substitution :
    (∀ (t : EmailTemplate) (data : List (String × String)),
        (∀ kv ∈ data, occursStr (placeholder kv.1) t.subject = false ∧
            occursStr (placeholder kv.1) t.body = false) →
        parseTemplate t data = t) ∧
    (∀ k v : String, parseTemplate ⟨placeholder k, placeholder k⟩ [(k, v)] = ⟨v, v⟩) ∧
    parseTemplate ⟨"\x7b\x7bname\x7d\x7d meets \x7b\x7bname\x7d\x7d", ""⟩ [("name", "X")] =
      ⟨"X meets X", ""⟩ ∧
    parseTemplate ⟨"\x7b\x7bName\x7d\x7d", ""⟩ [("name", "X")] = ⟨"\x7b\x7bName\x7d\x7d", ""⟩ :=
  ⟨fun t data h => parseTemplate_no_occur data t h,
   fun k v => parseTemplate_single_self k v,
   by decide, by decide⟩

/-- Witness for C2: instantiates the unchanged-template conjunct on a
template without placeholders. -/
theorem c2_substitution_witness :
    parseTemplate ⟨"Hi", ""⟩ [("name", "v")] = ⟨"Hi", ""⟩ :=
  c2_substitution.1 ⟨"Hi", ""⟩ [("name", "v")] (by decide)

/-- C7 counterexample: with map `[("b","X"), ("a","b")]` (iterated in
insertion order) and subject `"\x7b\x7b\x7b\x7ba\x7d\x7d\x7d\x7d"`, one `parseTemplate`
call yields `"\x7b\x7bb\x7d\x7d"` and a second call yields `"X"`, so applying
substitute twice differs from applying it once even though neither value
(`"X"`, `"b"`) contains any `\x7b\x7b...\x7d\x7d` syntax — refuting the claimed
idempotence condition. -/
theorem c7_counterexample :
    parseTemplate ⟨"\x7b\x7b\x7b\x7ba\x7d\x7d\x7d\x7d", ""⟩ [("b", "X"), ("a", "b")] =
      ⟨"\x7b\x7bb\x7d\x7d", ""⟩ ∧
    parseTemplate (parseTemplate ⟨"\x7b\x7b\x7b\x7ba\x7d\x7d\x7d\x7d", ""⟩ [("b", "X"), ("a", "b")])
        [("b", "X"), ("a", "b")] = ⟨"X", ""⟩ ∧
    parseTemplate (parseTemplate ⟨"\x7b\x7b\x7b\x7ba\x7d\x7d\x7d\x7d", ""⟩ [("b", "X"), ("a", "b")])
        [("b", "X"), ("a", "b")] ≠
      parseTemplate ⟨"\x7b\x7b\x7b\x7ba\x7d\x7d\x7d\x7d", ""⟩ [("b", "X"), ("a", "b")] ∧
    scanPlaceholders "X" = [] ∧ scanPlaceholders "b" = [] :=
  ⟨by decide, by decide, by decide, by decide, by decide⟩

/-- C7 (amended): substitution is non-recursive only per key: within one
key's replacement pass the substituted value is emitted verbatim and never
re-scanned for that key (conjunct 1, for every value `v`, including values
containing `\x7b\x7bname\x7d\x7d` itself; conjunct 3 shows the value surviving
verbatim for a single-key map); but keys are processed sequentially in map
insertion order, so a value substituted for an earlier key is re-scanned by
later keys' replacements (conjunct 2: the value `"\x7b\x7bb\x7d\x7d"` substituted
for `a` is then matched by key `b`), and hence a second `parseTemplate`
application need not be the identity even when no map value contains
`\x7b\x7b...\x7d\x7d` syntax. -/
theorem c7_no_rescan_per_key :
    (∀ v : String,
        parseTemplate ⟨placeholder "name", placeholder "name"⟩ [("name", v)] = ⟨v, v⟩) ∧
    parseTemplate ⟨placeholder "a", ""⟩ [("a", "\x7b\x7bb\x7d\x7d"), ("b", "X")] =
      ⟨"X", ""⟩ ∧
    parseTemplate ⟨placeholder "a", ""⟩ [("a", "\x7b\x7bb\x7d\x7d")] = ⟨"\x7b\x7bb\x7d\x7d", ""⟩ :=
  ⟨fun v => parseTemplate_single_self "name" v, by decide, by decide⟩

/-- Witness for C7: the per-key no-rescan conjunct applied to the value
`"\x7b\x7bname\x7d\x7d"` itself: the substituted value is not replaced again. -/
theorem c7_no_rescan_per_key_witness :
    parseTemplate ⟨placeholder "name", placeholder "name"⟩
        [("name", "\x7b\x7bname\x7d\x7d")] = ⟨"\x7b\x7bname\x7d\x7d", "\x7b\x7bname\x7d\x7d"⟩ :=
  c7_no_rescan_per_key.1 "\x7b\x7bname\x7d\x7d"

/-! ## Claim C8: template validation -/

theorem unsupported_error_ne (k s : String) (hlen : s.data.length < 29) :
    ("Unsupported placeholder: " ++ placeholder k) ≠ s := by
  intro h
  have hd := congrArg (fun x : String => x.data.length) h
  simp only [string_append_data, placeholder_data, List.length_append,
    List.length_cons] at hd
  have h25 : ("Unsupported placeholder: " : String).data.length = 25 := by decide
  have h2 : (['}', '}'] : List Char).length = 2 := by decide
  omega

theorem unsupported_error_inj :
    Function.Injective (fun k => "Unsupported placeholder: " ++ placeholder k) := by
  intro a b h
  have hd := congrArg String.data h
  simp only [string_append_data, placeholder_data] at hd
  have h3 := List.append_cancel_left hd
  simp only [List.cons.injEq, true_and] at h3
  exact string_data_inj (List.append_cancel_right h3)

/-- C8: `validateTemplate` collects a required-field error for each of
subject and body that is empty after trimming whitespace, plus exactly one
unsupported-placeholder error per distinct token whose key is outside
`\x7bname, company, position\x7d`; errors are collected rather than
short-circuited.  Conjuncts 4-6 are the spec's concrete instances,
including the all-errors-collected case of a fully blank template. -/
theorem c8_validate :
    (∀ t : EmailTemplate, isBlank t.subject = true →
        "Subject is required" ∈ validateTemplate t) ∧
    (∀ t : EmailTemplate, isBlank t.body = true →
        "Body is required" ∈ validateTemplate t) ∧
    (∀ (t : EmailTemplate) (k : String), k ∈ templateTokens t →
        supportedPlaceholders.contains k = false →
        (validateTemplate t).count ("Unsupported placeholder: " ++ placeholder k) = 1) ∧
    validateTemplate ⟨"Hi \x7b\x7bname\x7d\x7d", "Hello \x7b\x7bunknown\x7d\x7d"⟩ =
      ["Unsupported placeholder: \x7b\x7bunknown\x7d\x7d"] ∧
    validateTemplate ⟨"", "x"⟩ = ["Subject is required"] ∧
    validateTemplate ⟨"", ""⟩ = ["Subject is required", "Body is required"] := by
  refine ⟨?_, ?_, ?_, by decide, by decide, by decide⟩
  · intro t h
    simp [validateTemplate, requiredFieldErrors, h]
  · intro t h
    simp [validateTemplate, requiredFieldErrors, h]
  · intro t k hk hs
    rw [validateTemplate, List.count_append]
    have h0 : (requiredFieldErrors t).count
        ("Unsupported placeholder: " ++ placeholder k) = 0 := by
      rw [List.count_eq_zero]
      intro hmem
      have : ("Unsupported placeholder: " ++ placeholder k) = "Subject is required" ∨
          ("Unsupported placeholder: " ++ placeholder k) = "Body is required" := by
        rw [requiredFieldErrors] at hmem
        rcases List.mem_append.mp hmem with hm | hm
        · left
          by_cases hb : isBlank t.subject = true
          · rw [if_pos hb] at hm; simpa using hm
          · rw [if_neg hb] at hm; simp at hm
        · right
          by_cases hb : isBlank t.body = true
          · rw [if_pos hb] at hm; simpa using hm
          · rw [if_neg hb] at hm; simp at hm
      rcases this with h | h
      · exact unsupported_error_ne k _ (by decide) h
      · exact unsupported_error_ne k _ (by decide) h
    have h1 : (unsupportedErrors t).count
        ("Unsupported placeholder: " ++ placeholder k) = 1 := by
      rw [unsupportedErrors]
      rw [List.count_map_of_injective _ _ unsupported_error_inj k]
      rw [List.count_filter (by rw [hs]; rfl)]
      exact List.count_eq_one_of_mem (nodup_dedupGo _ _) hk
    rw [h0, h1]

/-- Witness for C8: the exactly-one-error conjunct applied to a template
whose body uses the unsupported key `zz`. -/
theorem c8_validate_witness :
    (validateTemplate ⟨"a", "b \x7b\x7bzz\x7d\x7d c"⟩).count
      ("Unsupported placeholder: " ++ placeholder "zz") = 1 :=
  c8_validate.2.2.1 ⟨"a", "b \x7b\x7bzz\x7d\x7d c"⟩ "zz" (by decide) (by decide)

/-! ## Claim C4: attachment aggregate size cap -/

theorem totalSize_filter_le (p : ClientAttachment → Bool) (l : List ClientAttachment) :
    totalSize (l.filter p) ≤ totalSize l := by
  induction l with
  | nil => exact Nat.le_refl 0
  | cons a xs ih =>
    rw [List.filter_cons]
    by_cases hp : p a = true
    · rw [if_pos hp]
      simp only [totalSize, List.map_cons, List.sum_cons] at ih ⊢
      omega
    · rw [if_neg hp]
      simp only [totalSize, List.map_cons, List.sum_cons] at ih ⊢
      omega

theorem handleAttachmentAdd_le (s fs : List ClientAttachment)
    (h : totalSize s ≤ 25 * 1024 * 1024) :
    totalSize (handleAttachmentAdd s fs).attachments ≤ 25 * 1024 * 1024 := by
  rw [handleAttachmentAdd]
  by_cases hgt : totalSize (s ++ fs) > 25 * 1024 * 1024
  · rw [if_pos hgt]; exact h
  · rw [if_neg hgt]
    show totalSize (s ++ fs) ≤ 25 * 1024 * 1024
    omega

theorem applyOps_le :
    ∀ (ops : List ClientOp) (s : List ClientAttachment),
      totalSize s ≤ 25 * 1024 * 1024 → totalSize (applyOps s ops) ≤ 25 * 1024 * 1024 := by
  intro ops
  induction ops with
  | nil => intro s h; exact h
  | cons op rest ih =>
    intro s h
    rw [applyOps, List.foldl_cons]
    cases op with
    | add fs => exact ih (applyOp s (ClientOp.add fs)) (handleAttachmentAdd_le s fs h)
    | remove i =>
      exact ih (applyOp s (ClientOp.remove i))
        (Nat.le_trans (totalSize_filter_le _ s) h)

/-- C4: the aggregate 25 MiB cap is enforced at intake by
`handleAttachmentAdd` (the only aggregate-size check in the program):
(1) every attachment set reachable from the empty state through user
add/remove interactions totals at most 25 MiB; (2) any add that would push
the total over 25 MiB is rejected with the aggregate-size notification and
leaves the accepted set unchanged; (3)-(4) the spec's instances: two files
of 10 MiB - 1 byte each (both under the 10 MiB per-file cap, conjunct 5)
are accepted at 20 MiB total, and adding a 6 MiB third file, pushing the
total to 26 MiB, is rejected with the aggregate-size error. -/
theorem c4_aggregate_cap :
    (∀ ops : List ClientOp, totalSize (applyOps [] ops) ≤ 25 * 1024 * 1024) ∧
    (∀ current newFiles : List ClientAttachment,
        totalSize (current ++ newFiles) > 25 * 1024 * 1024 →
        handleAttachmentAdd current newFiles =
          ⟨current, some "Total attachments size must be less than 25MB"⟩) ∧
    handleAttachmentAdd [] [⟨"f1", 10485759⟩, ⟨"f2", 10485759⟩] =
      ⟨[⟨"f1", 10485759⟩, ⟨"f2", 10485759⟩], none⟩ ∧
    handleAttachmentAdd [⟨"f1", 10485759⟩, ⟨"f2", 10485759⟩] [⟨"f3", 6291456⟩] =
      ⟨[⟨"f1", 10485759⟩, ⟨"f2", 10485759⟩],
       some "Total attachments size must be less than 25MB"⟩ ∧
    10485759 < 10 * 1024 * 1024 ∧ 6291456 < 10 * 1024 * 1024 := by
  refine ⟨fun ops => applyOps_le ops [] (by decide), ?_, by decide, by decide,
    by decide, by decide⟩
  intro current newFiles h
  rw [handleAttachmentAdd, if_pos h]

/-- Witness for C4: the rejection conjunct applied to a single over-the-cap
add. -/
theorem c4_aggregate_cap_witness :
    handleAttachmentAdd [] [⟨"big", 26214401⟩] =
      ⟨[], some "Total attachments size must be less than 25MB"⟩ :=
  c4_aggregate_cap.2.1 [] [⟨"big", 26214401⟩] (by decide)

/-! ## Dispatch fixtures -/

/-- Transport and store both succeed for every recipient. -/
def ocAllOk : Outcomes :=
  ⟨fun _ => none, fun _ _ => none⟩

def recAlice : EmailRecordM := ⟨"1", "alice@x.com", [("name", "Alice")]⟩

def recBob : EmailRecordM := ⟨"2", "bob@x.com", [("name", "Bob")]⟩

def reqTwo : DispatchRequest :=
  ⟨"Hi \x7b\x7bname\x7d\x7d", "Dear \x7b\x7bname\x7d\x7d", true, [recAlice, recBob], []⟩

def reqOne : DispatchRequest := ⟨"s", "c", true, [recAlice], []⟩

/-- Every send succeeds, but the store throws on `SENT` updates. -/
def ocWriteFail : Outcomes :=
  ⟨fun _ => none,
   fun _ st => match st with
     | EmailStatus.SENT => some "store down"
     | _ => none⟩

def recP1 : EmailRecordM := ⟨"1", "r1@x.com", []⟩
def recP2 : EmailRecordM := ⟨"2", "r2@x.com", []⟩
def recP3 : EmailRecordM := ⟨"3", "r3@x.com", []⟩
def recP4 : EmailRecordM := ⟨"4", "r4@x.com", []⟩
def recP5 : EmailRecordM := ⟨"5", "r5@x.com", []⟩

def req5 : DispatchRequest :=
  ⟨"s", "c", true, [recP1, recP2, recP3, recP4, recP5], []⟩

/-- The transport fails exactly for recipient `"3"`; all store writes succeed. -/
def ocFail3 : Outcomes :=
  ⟨fun r => if r.id = "3" then some "SMTP error" else none, fun _ _ => none⟩

/-- The transport fails exactly for recipient `"2"`; all store writes succeed. -/
def ocFail2 : Outcomes :=
  ⟨fun r => if r.id = "2" then some "boom" else none, fun _ _ => none⟩

def fileA : FormFile :=
  ⟨"attachment0", "application/pdf", 1000, "tmp/upload_a.pdf", some "a.pdf", true, [7, 8, 9]⟩

/-! ## Claim C5: empty pending snapshot -/

/-- C5 counterexample: with an empty pending snapshot the handler returns
the early `No pending emails to send` response, which carries no statistics
object at all — not the claimed aggregate report `\x7btotal:0, success:0,
failed:0\x7d`. -/
theorem c5_counterexample :
    handlerModel ⟨"s", "c", true, [], []⟩ ocAllOk = ⟨ApiResponse.noPending, [], [], []⟩ ∧
    hasStatistics (handlerModel ⟨"s", "c", true, [], []⟩ ocAllOk).response = false :=
  ⟨by decide, by decide⟩

/-- C5 (amended): when the pending snapshot is empty (and the request passed
the field check and `verify()`), the run returns the early
`No pending emails to send` response with no statistics object, performs no
store writes and no send attempts, and deletes no files. -/
theorem c5_empty_pending :
    ∀ (req : DispatchRequest) (oc : Outcomes),
      req.subject ≠ "" → req.content ≠ "" → req.verifyOk = true → req.pending = [] →
      handlerModel req oc = ⟨ApiResponse.noPending, [], [], []⟩ := by
  intro req oc hs hc hv hp
  rw [handlerModel, if_neg (fun h => h.elim hs hc), if_neg (by simp [hv]),
    if_pos (by rw [hp]; rfl)]

/-- Witness for C5: a request with an uploaded file but no pending
recipients still takes the early exit. -/
theorem c5_empty_pending_witness :
    handlerModel ⟨"s", "c", true, [], [fileA]⟩ ocAllOk =
      ⟨ApiResponse.noPending, [], [], []⟩ :=
  c5_empty_pending ⟨"s", "c", true, [], [fileA]⟩ ocAllOk (by decide) (by decide) rfl rfl

/-! ## Claim C6: status-write failure after a successful send -/

/-- C6 counterexample: recipient `"1"`'s send succeeds
(`ocWriteFail.send recAlice = none`) but the `SENT` status write throws;
the catch block then writes `FAILED` and the in-memory result reports
`success := false` with the write error — not the claimed `success:true` —
and the aggregate report counts the recipient as failed, with no distinct
warning field anywhere in the response. -/
theorem c6_counterexample :
    ocWriteFail.send recAlice = none ∧
    resultsOf (handlerModel reqOne ocWriteFail) =
      some [⟨false, "alice@x.com", some "store down"⟩] ∧
    (handlerModel reqOne ocWriteFail).writes =
      [⟨"1", EmailStatus.FAILED, some "store down"⟩] ∧
    statsOf (handlerModel reqOne ocWriteFail) = some ⟨1, 0, 1, 0⟩ :=
  ⟨rfl, by decide, by decide, by decide⟩

/-- C6 (amended): when the send succeeds but the `SENT` status write throws
with message `e` (and the subsequent `FAILED` write succeeds),
`sendSingleEmail` resolves with an in-memory result reporting failure —
`success := false` and `error := e` — and the store receives a `FAILED`
write recording `e` as the error message; the write-versus-send divergence
is not surfaced as a warning, the recipient is simply counted as failed. -/
theorem c6_write_failure :
    ∀ (r : EmailRecordM) (s c : String) (atts : List EmailAttachment)
      (oc : Outcomes) (e : String),
      oc.send r = none →
      oc.write r EmailStatus.SENT = some e →
      oc.write r EmailStatus.FAILED = none →
      sendSingleEmail r s c atts oc =
        (Except.ok ⟨false, r.emailAddress, some e⟩,
         [⟨r.id, EmailStatus.FAILED, some e⟩]) := by
  intro r s c atts oc e h1 h2 h3
  rw [sendSingleEmail, h1, h2, h3]

/-- Witness for C6: the amended theorem applied to recipient `"2"` under
the failing-store oracle. -/
theorem c6_write_failure_witness :
    sendSingleEmail recBob "s" "c" [] ocWriteFail =
      (Except.ok ⟨false, "bob@x.com", some "store down"⟩,
       [⟨"2", EmailStatus.FAILED, some "store down"⟩]) :=
  c6_write_failure recBob "s" "c" [] ocWriteFail "store down" rfl rfl rfl

/-! ## Claim C3: per-recipient failure isolation -/

/-- C3: per-recipient outcomes are independent — `sendSingleEmail` for a
recipient depends only on the transport and store outcomes for that same
recipient (conjunct 1), and in the spec's 5-recipient scenario where only
recipient `"3"`'s send fails, the run performs exactly 4 `SENT` writes and
1 `FAILED` write and reports `\x7btotal:5, success:4, failed:1\x7d` with one
result entry per recipient in snapshot order. -/
theorem c3_per_recipient_isolation :
    (∀ (r : EmailRecordM) (s c : String) (atts : List EmailAttachment)
        (oc oc' : Outcomes),
        oc.send r = oc'.send r →
        (∀ st, oc.write r st = oc'.write r st) →
        sendSingleEmail r s c atts oc = sendSingleEmail r s c atts oc') ∧
    countStatus (handlerModel req5 ocFail3).writes EmailStatus.SENT = 4 ∧
    countStatus (handlerModel req5 ocFail3).writes EmailStatus.FAILED = 1 ∧
    statsOf (handlerModel req5 ocFail3) = some ⟨5, 4, 1, 0⟩ ∧
    resultsOf (handlerModel req5 ocFail3) =
      some [⟨true, "r1@x.com", none⟩, ⟨true, "r2@x.com", none⟩,
            ⟨false, "r3@x.com", some "SMTP error"⟩, ⟨true, "r4@x.com", none⟩,
            ⟨true, "r5@x.com", none⟩] := by
  refine ⟨?_, by decide, by decide, by decide, by decide⟩
  intro r s c atts oc oc' h1 h2
  rw [sendSingleEmail, sendSingleEmail, h1, h2 EmailStatus.SENT, h2 EmailStatus.FAILED]

/-- Witness for C3: recipient `"1"`'s outcome is unchanged between an
oracle failing recipient `"2"` and one failing nobody. -/
theorem c3_per_recipient_isolation_witness :
    sendSingleEmail recP1 "s" "c" [] ocFail2 = sendSingleEmail recP1 "s" "c" [] ocAllOk :=
  c3_per_recipient_isolation.1 recP1 "s" "c" [] ocFail2 ocAllOk rfl (fun _ => rfl)

/-! ## Claim C1: no personalization in the dispatch path -/

theorem mails_mem :
    ∀ (req : DispatchRequest) (oc : Outcomes) (m : MailMessage),
      m ∈ (handlerModel req oc).mails →
      ∃ (r : EmailRecordM) (atts : List EmailAttachment) (dels : List String),
        processFiles req.files [] [] = Except.ok (atts, dels) ∧
        m = buildMail r req.subject req.content atts := by
  intro req oc m h
  rw [handlerModel] at h
  split at h
  · simp at h
  · split at h
    · simp at h
    · split at h
      · simp at h
      · split at h
        · simp at h
        · next atts dels heq =>
          simp only [dispatchMails] at h
          rcases List.mem_map.mp h with ⟨r, _, rfl⟩
          exact ⟨r, atts, dels, heq, rfl⟩

/-- C1 (amended): the handler performs no placeholder substitution in the
dispatch path — every message handed to the transport carries the form's
subject and content verbatim and the one shared attachment list, so all
recipients receive identical subject, body and attachment bytes regardless
of their metadata. -/
theorem c1_uniform_message :
    ∀ (req : DispatchRequest) (oc : Outcomes) (m : MailMessage),
      m ∈ (handlerModel req oc).mails →
      m.subject = req.subject ∧ m.html = req.content ∧
      ∀ m', m' ∈ (handlerModel req oc).mails →
        m'.subject = m.subject ∧ m'.html = m.html ∧ m'.attachments = m.attachments := by
  intro req oc m h
  rcases mails_mem req oc m h with ⟨r, atts, dels, heq, rfl⟩
  refine ⟨rfl, rfl, ?_⟩
  intro m' h'
  rcases mails_mem req oc m' h' with ⟨r', atts', dels', heq', rfl⟩
  rw [heq] at heq'
  have hp : atts = atts' ∧ dels = dels' := by
    have := Except.ok.inj heq'
    exact ⟨congrArg Prod.fst this, congrArg Prod.snd this⟩
  rw [hp.1]
  exact ⟨rfl, rfl, rfl⟩

/-- Witness for C1: the first message of the two-recipient run carries the
raw form subject and content. -/
theorem c1_uniform_message_witness :
    (⟨"alice@x.com", "Hi \x7b\x7bname\x7d\x7d", "Dear \x7b\x7bname\x7d\x7d", []⟩ :
        MailMessage).subject = reqTwo.subject ∧
    (⟨"alice@x.com", "Hi \x7b\x7bname\x7d\x7d", "Dear \x7b\x7bname\x7d\x7d", []⟩ :
        MailMessage).html = reqTwo.content :=
  ⟨(c1_uniform_message reqTwo ocAllOk _ (by decide)).1,
   (c1_uniform_message reqTwo ocAllOk _ (by decide)).2.1⟩

/-- C1 counterexample: two pending recipients whose metadata differ
(`name` Alice vs Bob) receive byte-identical messages, whose subject is the
raw template text `"Hi \x7b\x7bname\x7d\x7d"` — not the recipient-specific
substitution `"Hi Alice"` that `parseTemplate` would have produced — so the
claimed recipient-specific substituted content is never built. -/
theorem c1_counterexample :
    (handlerModel reqTwo ocAllOk).mails =
      [⟨"alice@x.com", "Hi \x7b\x7bname\x7d\x7d", "Dear \x7b\x7bname\x7d\x7d", []⟩,
       ⟨"bob@x.com", "Hi \x7b\x7bname\x7d\x7d", "Dear \x7b\x7bname\x7d\x7d", []⟩] ∧
    recAlice.metadata ≠ recBob.metadata ∧
    parseTemplate ⟨"Hi \x7b\x7bname\x7d\x7d", "Dear \x7b\x7bname\x7d\x7d"⟩ [("name", "Alice")] =
      ⟨"Hi Alice", "Dear Alice"⟩ ∧
    ("Hi \x7b\x7bname\x7d\x7d" : String) ≠ "Hi Alice" :=
  ⟨by decide, by decide, by decide, by decide⟩

/-! ## Claim C9: temporary-file cleanup -/

theorem filter_not_contains_nil (l : List String) :
    l.filter (fun fp => !(List.contains ([] : List String) fp)) = l := by
  induction l with
  | nil => rfl
  | cons x xs ih =>
    have hc : (!(List.contains ([] : List String) x)) = true := rfl
    rw [List.filter_cons, if_pos hc, ih]

/-- C9 (amended): temp files are deleted only by the cleanup loop that runs
after the fan-out (or by the main catch, over the same `filesToDelete`
list): (1) when `transporter.verify()` throws, the handler exits through
the main catch with `filesToDelete` still empty, deleting nothing — every
uploaded temp file is left on disk; (2) on the completed-dispatch path the
deleted files are exactly the temp paths of the attachment files that were
accepted and read into memory. -/
theorem c9_cleanup :
    (∀ (req : DispatchRequest) (oc : Outcomes),
        req.subject ≠ "" → req.content ≠ "" → req.verifyOk = false →
        (handlerModel req oc).deletedFiles = [] ∧
        leftoverTempFiles req (handlerModel req oc) =
          req.files.map (fun f => f.filepath)) ∧
    (∀ (req : DispatchRequest) (oc : Outcomes) (atts : List EmailAttachment)
        (dels : List String),
        req.subject ≠ "" → req.content ≠ "" → req.verifyOk = true →
        req.pending.isEmpty = false →
        processFiles req.files [] [] = Except.ok (atts, dels) →
        (handlerModel req oc).deletedFiles = dels ∧
        hasStatistics (handlerModel req oc).response = true) := by
  constructor
  · intro req oc hs hc hv
    have hout : handlerModel req oc =
        ⟨ApiResponse.serverError "Failed to send emails", [], [], []⟩ := by
      rw [handlerModel, if_neg (fun h => h.elim hs hc), if_pos hv]
    rw [hout, leftoverTempFiles]
    exact ⟨rfl, filter_not_contains_nil _⟩
  · intro req oc atts dels hs hc hv hp heq
    rw [handlerModel, if_neg (fun h => h.elim hs hc), if_neg (by simp [hv]),
      if_neg (by simp [hp]), heq]
    exact ⟨rfl, rfl⟩

/-- Witness for C9: a completed run with one accepted PDF deletes exactly
its temp path and returns a statistics-bearing report. -/
theorem c9_cleanup_witness :
    (handlerModel ⟨"s", "c", true, [recAlice], [fileA]⟩ ocAllOk).deletedFiles =
      ["tmp/upload_a.pdf"] ∧
    hasStatistics (handlerModel ⟨"s", "c", true, [recAlice], [fileA]⟩ ocAllOk).response =
      true :=
  c9_cleanup.2 ⟨"s", "c", true, [recAlice], [fileA]⟩ ocAllOk
    [⟨"a.pdf", [7, 8, 9], "application/pdf"⟩] ["tmp/upload_a.pdf"]
    (by decide) (by decide) rfl rfl (by decide)

/-- C9 counterexample: transport failure (`verify()` throws) after formidable
has written the uploaded PDF to `tmp/upload_a.pdf`: the handler returns the
500 response having deleted nothing, so the temp file is left on disk —
refuting deletion on every exit path including transport failure. -/
theorem c9_counterexample :
    handlerModel ⟨"s", "c", false, [recAlice], [fileA]⟩ ocAllOk =
      ⟨ApiResponse.serverError "Failed to send emails", [], [], []⟩ ∧
    leftoverTempFiles ⟨"s", "c", false, [recAlice], [fileA]⟩
        (handlerModel ⟨"s", "c", false, [recAlice], [fileA]⟩ ocAllOk) =
      ["tmp/upload_a.pdf"] :=
  ⟨by decide, by decide⟩

/-! ## Claim C10: internal consistency of the aggregate report -/

theorem processFiles_error_no_report :
    ∀ (files : List FormFile) (atts : List EmailAttachment) (dels : List String)
      (resp : ApiResponse),
      processFiles files atts dels = Except.error resp → hasStatistics resp = false := by
  intro files
  induction files with
  | nil =>
    intro atts dels resp h
    rw [processFiles] at h
    exact Except.noConfusion h
  | cons f rest ih =>
    intro atts dels resp h
    rw [processFiles] at h
    split at h
    · split at h
      · rw [← Except.error.inj h]; rfl
      · split at h
        · rw [← Except.error.inj h]; rfl
        · split at h
          · rw [← Except.error.inj h]; rfl
          · exact ih _ _ _ h
    · exact ih _ _ _ h

/-- C10: every aggregate report produced by a run that reaches the fan-out
stage is internally consistent: `total` equals the size of the pending
snapshot, the results list has exactly one entry per snapshot recipient,
`success` counts the successful results, `failed` equals `total - success`
(and `success ≤ total`), `attachments` equals the number of accepted
attachment files, and the results are index-aligned with the snapshot. -/
theorem c10_report_consistency :
    ∀ (req : DispatchRequest) (oc : Outcomes) (m : String)
      (rs : List EmailSendResult) (st : Statistics),
      (handlerModel req oc).response = ApiResponse.report m rs st →
      rs.length = req.pending.length ∧
      st.total = req.pending.length ∧
      st.success = successCount rs ∧
      st.failed = st.total - st.success ∧
      st.success ≤ st.total ∧
      (∃ (atts : List EmailAttachment) (dels : List String),
          processFiles req.files [] [] = Except.ok (atts, dels) ∧
          st.attachments = atts.length) ∧
      (∀ (i : Nat) (h1 : i < rs.length) (h2 : i < req.pending.length),
          (rs.get ⟨i, h1⟩).email = (req.pending.get ⟨i, h2⟩).emailAddress) := by
  intro req oc m rs st h
  rw [handlerModel] at h
  split at h
  · simp at h
  · split at h
    · simp at h
    · split at h
      · simp at h
      · split at h
        · next resp heq =>
          simp only at h
          have hfalse := processFiles_error_no_report req.files [] [] resp heq
          rw [h] at hfalse
          simp [hasStatistics] at hfalse
        · next atts dels heq =>
          simp only [ApiResponse.report.injEq] at h
          obtain ⟨hm, hrs, hst⟩ := h
          subst hrs
          subst hst
          have hlen : (dispatchResults req.pending req.subject req.content atts oc).length =
              req.pending.length := by
            simp only [dispatchResults, List.length_map]
          refine ⟨hlen, hlen, rfl, rfl, List.length_filter_le _ _, ⟨atts, dels, heq, rfl⟩, ?_⟩
          intro i h1 h2
          simp only [dispatchResults]
          rw [map_get_eq _ req.pending i h1 h2]
          exact settle_email _ _ _ _ _

/-- Witness for C10: the consistency properties instantiated on the
5-recipient run with one failing send. -/
theorem c10_report_consistency_witness :
    ([⟨true, "r1@x.com", none⟩, ⟨true, "r2@x.com", none⟩,
      ⟨false, "r3@x.com", some "SMTP error"⟩, ⟨true, "r4@x.com", none⟩,
      ⟨true, "r5@x.com", none⟩] : List EmailSendResult).length =
      req5.pending.length ∧
    (⟨5, 4, 1, 0⟩ : Statistics).total = req5.pending.length :=
  have h := c10_report_consistency req5 ocFail3
    "Successfully sent 4 emails, 1 failed"
    [⟨true, "r1@x.com", none⟩, ⟨true, "r2@x.com", none⟩,
     ⟨false, "r3@x.com", some "SMTP error"⟩, ⟨true, "r4@x.com", none⟩,
     ⟨true, "r5@x.com", none⟩] ⟨5, 4, 1, 0⟩ (by decide)
  ⟨h.1, h.2.1⟩
